import Mathlib

/-!
Shallow embedding of `src/flight/Modules/Sensors/sensors.c` (OpenPilot
Sensors module).  Floating point values are modelled as rationals, the
per-axis integer accumulators as integers.  One iteration of the main
`while (1)` loop of `SensorsTask` (lines 192-402) is the function
`cycleStep`; the preprocessor configurations of the file are the values of
`SensorConfig`.  Alarm set/clear calls, watchdog kicks, published UAV
objects and the debug telemetry frame are recorded as explicit outputs of
a cycle.
-/

namespace Sensors

abbrev Vec3 := ℚ × ℚ × ℚ
abbrev IVec3 := ℤ × ℤ × ℤ

/-- `struct pios_mpu6000_data`: raw gyro, accel and temperature words. -/
structure Mpu6000Data where
  gyro_x : ℤ
  gyro_y : ℤ
  gyro_z : ℤ
  accel_x : ℤ
  accel_y : ℤ
  accel_z : ℤ
  temperature : ℤ
deriving DecidableEq

/-- `struct pios_bma180_data`: raw accel and temperature words. -/
structure Bma180Data where
  x : ℤ
  y : ℤ
  z : ℤ
  temperature : ℤ
deriving DecidableEq

/-- `struct pios_l3gd20_data`: raw gyro words, temperature field used
directly as a float at line 324. -/
structure L3gd20Data where
  gyro_x : ℤ
  gyro_y : ℤ
  gyro_z : ℤ
  temperature : ℚ
deriving DecidableEq

/-- The published `AccelsData` UAV object (fields written at 304-312). -/
structure AccelsData where
  x : ℚ
  y : ℚ
  z : ℚ
  temperature : ℚ
deriving DecidableEq

/-- The published `GyrosData` UAV object (fields written at 318-332). -/
structure GyrosData where
  x : ℚ
  y : ℚ
  z : ℚ
  temperature : ℚ
deriving DecidableEq

/-- The published `MagnetometerData` UAV object (fields written at 345-347). -/
structure MagnetometerData where
  x : ℚ
  y : ℚ
  z : ℚ
deriving DecidableEq

/-- The calibration globals of lines 85-88, refreshed by `settingsUpdatedCb`. -/
structure Calibration where
  mag_bias : Vec3
  mag_scale : Vec3
  accel_bias : Vec3
  accel_scale : Vec3
deriving DecidableEq

/-- The preprocessor configurations the file documents at lines 141-144:
MPU6000 gyro+accel; BMA180 accel with MPU6000 gyro; BMA180 accel with
L3GD20 gyro. -/
inductive SensorConfig where
  | mpu6000Accel
  | bma180Mpu6000
  | bma180L3gd20
deriving DecidableEq

/-- Outcome of the FIFO wait-and-drain loops (lines 219-238 and 247-266):
either the per-cycle time budget elapses before the first successful read,
or the drain yields at least one sample (the wait loop only exits on a
successful read, after which the inner loop accumulates it). -/
inductive FifoRead (α : Type) where
  | timeout
  | data (first : α) (rest : List α)
deriving DecidableEq

/-- Alarm registry calls made by the task, in program order. -/
inductive AlarmEvent where
  | setCritical
  | clear
deriving DecidableEq

inductive AlarmSeverity where
  | ok
  | critical
deriving DecidableEq

/-- State of the named sensors alarm after a list of registry calls. -/
def alarmAfter (s : AlarmSeverity) (l : List AlarmEvent) : AlarmSeverity :=
  l.foldl (fun _ e => match e with
    | AlarmEvent.setCritical => AlarmSeverity.critical
    | AlarmEvent.clear => AlarmSeverity.ok) s

/-- One byte of the debug telemetry buffer: a literal byte written by the
code, or the i-th byte of the IEEE-754 float32 serialization of a value
(the serialization itself is opaque to this model). -/
inductive TByte where
  | lit (b : ℕ)
  | fb (v : ℚ) (i : Fin 4)
deriving DecidableEq

/-- Four serialized bytes of one float32 value (`sizeof(float) = 4`). -/
def f32 (v : ℚ) : List TByte := [TByte.fb v 0, TByte.fb v 1, TByte.fb v 2, TByte.fb v 3]

/-- Line 355: sync byte `0xff`, then `(lastSysTime & 0xff00) >> 8`, then
`lastSysTime & 0x00ff`. -/
def frameHeader (ts : ℕ) : List TByte :=
  [TByte.lit 0xff, TByte.lit ((ts &&& 0xff00) >>> 8), TByte.lit (ts &&& 0x00ff)]

/-- Lines 358-359: `memcpy` of `sizeof(accelsData.x) * 3` bytes starting at
field `x` — the three axis floats, no temperature. -/
def accelBlock (a : AccelsData) : List TByte := f32 a.x ++ f32 a.y ++ f32 a.z

/-- Lines 362-363: `memcpy` of the whole `GyrosData` struct — three axis
floats followed by the temperature float. -/
def gyroBlock (g : GyrosData) : List TByte :=
  f32 g.x ++ f32 g.y ++ f32 g.z ++ f32 g.temperature

/-- Lines 365-370: tag byte `0x01` followed by the magnetometer struct. -/
def magBlock (m : MagnetometerData) : List TByte :=
  TByte.lit 0x01 :: (f32 m.x ++ f32 m.y ++ f32 m.z)

/-- Lines 353-394: the telemetry buffer assembled for the auxiliary sink.
`gps` and `baro` are the opaque serialized `GPSPositionData` and
`BaroAltitudeData` records, present exactly when their block is emitted. -/
def buildFrame (ts : ℕ) (a : AccelsData) (g : GyrosData)
    (mag : Option MagnetometerData) (gps : Option (List TByte))
    (baro : Option (List TByte)) : List TByte :=
  frameHeader ts ++ accelBlock a ++ gyroBlock g ++
    (match mag with
     | none => []
     | some m => magBlock m) ++
    (match gps with
     | none => []
     | some r => TByte.lit 0x02 :: r) ++
    (match baro with
     | none => []
     | some r => TByte.lit 0x03 :: r)

/-- Per-task persistent state threaded between loop iterations: the cycle
error flag (line 191) and the auxiliary-data update flags (lines 74-75). -/
structure CycleState where
  error : Bool
  gps_updated : Bool
  baro_updated : Bool
deriving DecidableEq

/-- Environment of one loop iteration: bus read outcomes, hardware scale
factors, the current gyro bias estimate, the opaque auxiliary records, the
sink attachment check and the tick count. `accelsSetRet` is the value the
source stores back into `accelsData.temperature` from the return of
`AccelsSet` at lines 312-313 (evaluated after the publish call).
`l3gd20Init` is the content of the uninitialized `gyro` struct of line 277
before any queue item is received. `accelTempUninit` is the indeterminate
content of the local `accelsData.temperature` field when neither branch of
lines 307-311 applies: the guard at line 307 tests bare `BMA180`, a macro
none of the configurations of this file defines (they use
`PIOS_INCLUDE_BMA180`), so in the BMA180 configurations the field is still
uninitialized when `AccelsSet` publishes it. -/
structure CycleInput where
  accelRead : FifoRead Bma180Data
  gyroRead : FifoRead Mpu6000Data
  l3gd20Samples : List L3gd20Data
  l3gd20Init : L3gd20Data
  accelScaling : ℚ
  gyroScaling : ℚ
  magSample : Option (ℤ × ℤ × ℤ)
  gyroBias : Vec3
  gpsRecord : List TByte
  baroRecord : List TByte
  sinkAttached : Bool
  accelsSetRet : ℚ
  accelTempUninit : ℚ
  ts : ℕ
deriving DecidableEq

/-- Observable effects of one loop iteration. -/
structure CycleOutput where
  alarms : List AlarmEvent
  wdgKicks : ℕ
  forcedAccelReads : ℕ
  accelsOut : Option AccelsData
  gyrosOut : Option GyrosData
  magOut : Option MagnetometerData
  frame : Option (List TByte)
  state : CycleState
deriving DecidableEq

/-- Accumulation loop for MPU6000 gyro words (lines 255-257). -/
def sumMpuGyro (l : List Mpu6000Data) : IVec3 :=
  l.foldl (fun a s => (a.1 + s.gyro_x, a.2.1 + s.gyro_y, a.2.2 + s.gyro_z)) (0, 0, 0)

/-- Accumulation loop for MPU6000 accel words (lines 260-262). -/
def sumMpuAccel (l : List Mpu6000Data) : IVec3 :=
  l.foldl (fun a s => (a.1 + s.accel_x, a.2.1 + s.accel_y, a.2.2 + s.accel_z)) (0, 0, 0)

/-- Accumulation loop for BMA180 accel words (lines 233-235). -/
def sumBma (l : List Bma180Data) : IVec3 :=
  l.foldl (fun a s => (a.1 + s.x, a.2.1 + s.y, a.2.2 + s.z)) (0, 0, 0)

/-- Accumulation loop for L3GD20 gyro words (lines 283-285). -/
def sumL3gd20 (l : List L3gd20Data) : IVec3 :=
  l.foldl (fun a s => (a.1 + s.gyro_x, a.2.1 + s.gyro_y, a.2.2 + s.gyro_z)) (0, 0, 0)

/-- Per-axis real-valued average of the accumulated sums. -/
def meanVec (accum : IVec3) (n : ℕ) : Vec3 :=
  ((accum.1 : ℚ) / (n : ℚ), (accum.2.1 : ℚ) / (n : ℚ), (accum.2.2 : ℚ) / (n : ℚ))

/-- The body-frame axis permutation with sign flip: raw (x, y, z) becomes
(y, x, -z). -/
def axisRemap (v : Vec3) : Vec3 := (v.2.1, v.1, -v.2.2)

/-- Lines 295 and 315, exactly as written: the remapped per-axis averages
`{accum[1] / n, accum[0] / n, -accum[2] / n}`. -/
def remapMean (accum : IVec3) (n : ℕ) : Vec3 :=
  ((accum.2.1 : ℚ) / (n : ℚ), (accum.1 : ℚ) / (n : ℚ), -((accum.2.2 : ℚ) / (n : ℚ)))

/-- Lines 304-306: physical scale factor, per-axis calibration scale, then
per-axis bias subtraction. -/
def applyAccelCal (cal : Calibration) (accels : Vec3) (accel_scaling : ℚ) : Vec3 :=
  (accels.1 * accel_scaling * cal.accel_scale.1 - cal.accel_bias.1,
   accels.2.1 * accel_scaling * cal.accel_scale.2.1 - cal.accel_bias.2.1,
   accels.2.2 * accel_scaling * cal.accel_scale.2.2 - cal.accel_bias.2.2)

/-- Lines 318-320: gyro physical scaling. -/
def scaleGyro (gyros : Vec3) (s : ℚ) : Vec3 := (gyros.1 * s, gyros.2.1 * s, gyros.2.2 * s)

/-- MPU6000 temperature conversion (lines 310 and 322). -/
def mpuTemp (t : ℤ) : ℚ := 35 + ((t : ℚ) + 512) / 340

/-- BMA180 temperature conversion as written at line 308.  This line is
dead code in every configuration of the file: its guard (line 307) tests
bare `BMA180`, which is never defined — the configuration macros are
`PIOS_INCLUDE_BMA180` and friends. -/
def bmaTemp (t : ℤ) : ℚ := 25 + ((t : ℚ) - 2) / 2

/-- Lines 345-347: the magnetometer measurement from the raw int16 words
`values`, with raw-unit calibration and the (y, x, -z) channel order. -/
def magMeasurement (cal : Calibration) (values : ℤ × ℤ × ℤ) : MagnetometerData :=
  { x := (values.2.1 : ℚ) * cal.mag_scale.1 - cal.mag_bias.1
  , y := (values.1 : ℚ) * cal.mag_scale.2.1 - cal.mag_bias.2.1
  , z := -(values.2.2 : ℚ) * cal.mag_scale.2.2 - cal.mag_bias.2.2 }

/-- Alarm calls at the top of an iteration (lines 195-203): a pending error
sets the critical alarm (after the watchdog kick and delay), otherwise the
alarm is cleared. -/
def topAlarms (err : Bool) : List AlarmEvent :=
  if err then [AlarmEvent.setCritical] else [AlarmEvent.clear]

/-- Watchdog kicks in the top error branch (line 196). -/
def topKicks (err : Bool) : ℕ := if err then 1 else 0

/-- Effects of an iteration abandoned by `continue` after a read timeout
(lines 222-229 and 250-251): nothing is published, no frame is built, the
update flags are untouched and the error flag is left set for the next
iteration. -/
def skipOutput (err : Bool) (forced : ℕ) (st : CycleState) : CycleOutput :=
  { alarms := topAlarms err
  , wdgKicks := topKicks err
  , forcedAccelReads := forced
  , accelsOut := none
  , gyrosOut := none
  , magOut := none
  , frame := none
  , state := { error := true, gps_updated := st.gps_updated, baro_updated := st.baro_updated } }

/-- Lines 295-396: the publication tail of a successful iteration, common
to all configurations.  `accelTempVal` and `gyroTempVal` are the values the
configuration leaves in the temperature fields at the publish calls (lines
307-313 and 321-325); for the BMA180 configurations the accel value is the
uninitialized local field, since no branch of lines 307-311 applies. -/
def publishTail (cal : Calibration) (bias_correct_gyro : Bool) (st : CycleState)
    (inp : CycleInput) (accel_accum gyro_accum : IVec3)
    (accel_samples gyro_samples : ℕ) (accel_scaling gyro_scaling : ℚ)
    (accelTempVal gyroTempVal : ℚ) : CycleOutput :=
  let accels := remapMean accel_accum accel_samples
  let a := applyAccelCal cal accels accel_scaling
  let accelsData : AccelsData :=
    { x := a.1, y := a.2.1, z := a.2.2, temperature := accelTempVal }
  -- Lines 312-313: `accelsData.temperature = AccelsSet(&accelsData);`
  -- publishes the struct with the formula temperature, then overwrites the
  -- local temperature field with the converted return value; only the three
  -- axis fields of the local struct are read afterwards (telemetry memcpy).
  let accelsAfterSet : AccelsData := { accelsData with temperature := inp.accelsSetRet }
  let gyros := remapMean gyro_accum gyro_samples
  let g0 := scaleGyro gyros gyro_scaling
  let g1 := if bias_correct_gyro then
      (g0.1 + inp.gyroBias.1, g0.2.1 + inp.gyroBias.2.1, g0.2.2 + inp.gyroBias.2.2)
    else g0
  let gyrosData : GyrosData :=
    { x := g1.1, y := g1.2.1, z := g1.2.2, temperature := gyroTempVal }
  let magOut := inp.magSample.map (magMeasurement cal)
  let frame := if inp.sinkAttached then
      some (buildFrame inp.ts accelsAfterSet gyrosData magOut
        (if st.gps_updated then some inp.gpsRecord else none)
        (if st.baro_updated then some inp.baroRecord else none))
    else none
  { alarms := topAlarms st.error
  , wdgKicks := topKicks st.error + 1
  , forcedAccelReads := 0
  , accelsOut := some accelsData
  , gyrosOut := some gyrosData
  , magOut := magOut
  , frame := frame
  , state :=
    { error := false
    , gps_updated := if inp.sinkAttached && st.gps_updated then false else st.gps_updated
    , baro_updated := if inp.sinkAttached && st.baro_updated then false else st.baro_updated } }

/-- One iteration in the MPU6000 gyro+accel configuration
(`PIOS_INCLUDE_MPU6000` with `PIOS_MPU6000_ACCEL`): one FIFO drain feeds
both accumulators (lines 244-273), accel temperature from the MPU formula
(line 310). -/
def cycleMpu6000Accel (cal : Calibration) (bias_correct_gyro : Bool)
    (st : CycleState) (inp : CycleInput) : CycleOutput :=
  match inp.gyroRead with
  | FifoRead.timeout => skipOutput st.error 0 st
  | FifoRead.data first rest =>
      let samples := first :: rest
      let n := samples.length
      let lastg := rest.getLastD first
      publishTail cal bias_correct_gyro st inp (sumMpuAccel samples) (sumMpuGyro samples)
        n n inp.accelScaling inp.gyroScaling
        (mpuTemp lastg.temperature) (mpuTemp lastg.temperature)

/-- One iteration in the BMA180 accel + MPU6000 gyro configuration: the
BMA180 drain runs first (lines 216-241, with the forced kick-start read in
its timeout branch), then the MPU6000 drain. -/
def cycleBma180Mpu6000 (cal : Calibration) (bias_correct_gyro : Bool)
    (st : CycleState) (inp : CycleInput) : CycleOutput :=
  match inp.accelRead with
  | FifoRead.timeout => skipOutput st.error 1 st
  | FifoRead.data afirst arest =>
      match inp.gyroRead with
      | FifoRead.timeout => skipOutput st.error 0 st
      | FifoRead.data gfirst grest =>
          let asamples := afirst :: arest
          let gsamples := gfirst :: grest
          let lastg := grest.getLastD gfirst
          -- Lines 307-311: neither `#if defined(BMA180)` (a macro this
          -- configuration never defines) nor `#elif defined(PIOS_MPU6000_ACCEL)`
          -- applies, so the published accel temperature is the uninitialized
          -- local field.
          publishTail cal bias_correct_gyro st inp (sumBma asamples) (sumMpuGyro gsamples)
            asamples.length gsamples.length inp.accelScaling inp.gyroScaling
            inp.accelTempUninit (mpuTemp lastg.temperature)

/-- One iteration in the BMA180 accel + L3GD20 gyro configuration: the
L3GD20 queue is drained without any timeout check (lines 276-287) and may
yield zero samples; the `gyro` struct then keeps its previous content. -/
def cycleBma180L3gd20 (cal : Calibration) (bias_correct_gyro : Bool)
    (st : CycleState) (inp : CycleInput) : CycleOutput :=
  match inp.accelRead with
  | FifoRead.timeout => skipOutput st.error 1 st
  | FifoRead.data afirst arest =>
      let asamples := afirst :: arest
      let gsamples := inp.l3gd20Samples
      let lastg := gsamples.getLastD inp.l3gd20Init
      -- Lines 307-311: as in the other BMA180 configuration, no branch
      -- applies, so the published accel temperature is the uninitialized
      -- local field.
      publishTail cal bias_correct_gyro st inp (sumBma asamples) (sumL3gd20 gsamples)
        asamples.length gsamples.length inp.accelScaling inp.gyroScaling
        inp.accelTempUninit lastg.temperature

/-- One iteration of the main loop of `SensorsTask` under a configuration. -/
def cycleStep (cfg : SensorConfig) (cal : Calibration) (bias_correct_gyro : Bool)
    (st : CycleState) (inp : CycleInput) : CycleOutput :=
  match cfg with
  | SensorConfig.mpu6000Accel => cycleMpu6000Accel cal bias_correct_gyro st inp
  | SensorConfig.bma180Mpu6000 => cycleBma180Mpu6000 cal bias_correct_gyro st inp
  | SensorConfig.bma180L3gd20 => cycleBma180L3gd20 cal bias_correct_gyro st inp

/-- Threaded run of consecutive loop iterations. -/
def runCycles (cfg : SensorConfig) (cal : Calibration) (bias_correct_gyro : Bool) :
    CycleState → List CycleInput → List CycleOutput
  | _, [] => []
  | st, i :: is =>
      let o := cycleStep cfg cal bias_correct_gyro st i
      o :: runCycles cfg cal bias_correct_gyro o.state is

/-- `sensorsUpdatedCb` (lines 408-414): an asynchronous object event sets
the matching update flag and touches nothing else. -/
def applyEvent (gpsEv baroEv : Bool) (st : CycleState) : CycleState :=
  { st with gps_updated := st.gps_updated || gpsEv
          , baro_updated := st.baro_updated || baroEv }

/-- Lines 162-175: the startup self-test verdict. -/
def selfTestFailed (accel_test gyro_test mag_test : ℤ) : Bool :=
  accel_test < 0 || gyro_test < 0 || mag_test < 0

/-- Alarm calls made before the main loop: the clear at line 157, then the
critical set of line 176 when any self-test failed. -/
def startupAlarms (accel_test gyro_test mag_test : ℤ) : List AlarmEvent :=
  AlarmEvent.clear ::
    (if selfTestFailed accel_test gyro_test mag_test then [AlarmEvent.setCritical] else [])

/-- One pass of the watchdog-fed idle loop of lines 177-180: a kick, a
delay, and nothing else — no publication, no alarm call, no frame. -/
def haltedOutput : CycleOutput :=
  { alarms := []
  , wdgKicks := 1
  , forcedAccelReads := 0
  , accelsOut := none
  , gyrosOut := none
  , magOut := none
  , frame := none
  , state := { error := false, gps_updated := false, baro_updated := false } }

/-- `SensorsTask` over a finite trace of cycle environments: the startup
alarm calls, then either the idle loop forever (self-test failure, one
idle pass per would-be cycle) or the main loop from the initial state. -/
def sensorsTaskRun (cfg : SensorConfig) (cal : Calibration) (bias_correct_gyro : Bool)
    (accel_test gyro_test mag_test : ℤ) (inputs : List CycleInput) :
    List AlarmEvent × List CycleOutput :=
  if selfTestFailed accel_test gyro_test mag_test then
    (startupAlarms accel_test gyro_test mag_test, inputs.map fun _ => haltedOutput)
  else
    (startupAlarms accel_test gyro_test mag_test,
     runCycles cfg cal bias_correct_gyro
       { error := false, gps_updated := false, baro_updated := false } inputs)

/-! Concrete fixtures used by witnesses and counterexamples. -/

def cal0 : Calibration := ⟨(0, 0, 0), (0, 0, 0), (0, 0, 0), (0, 0, 0)⟩

/-- Calibration of the round-trip scenario: accel_bias [1,2,3], accel_scale [1,1,1]. -/
def calRT : Calibration := ⟨(0, 0, 0), (0, 0, 0), (1, 2, 3), (1, 1, 1)⟩

def st0 : CycleState := ⟨false, false, false⟩

def mpu0 : Mpu6000Data := ⟨0, 0, 0, 0, 0, 0, 0⟩

/-- Raw sample whose remapped accel mean is [1, 2, 3]. -/
def mpuRT : Mpu6000Data := ⟨0, 0, 0, 2, 1, -3, 0⟩

def bma0 : Bma180Data := ⟨0, 0, 0, 0⟩

def l3g0 : L3gd20Data := ⟨0, 0, 0, 0⟩

def inp0 : CycleInput :=
  { accelRead := FifoRead.data bma0 []
  , gyroRead := FifoRead.data mpu0 []
  , l3gd20Samples := []
  , l3gd20Init := l3g0
  , accelScaling := 1
  , gyroScaling := 1
  , magSample := none
  , gyroBias := (0, 0, 0)
  , gpsRecord := []
  , baroRecord := []
  , sinkAttached := false
  , accelsSetRet := 0
  , accelTempUninit := 0
  , ts := 0 }

/-! Helper lemmas about the accumulation loops. -/

theorem foldl_sum3 {α : Type} (f g h : α → ℤ) (l : List α) (a : IVec3) :
    l.foldl (fun p s => (p.1 + f s, p.2.1 + g s, p.2.2 + h s)) a
      = (a.1 + (l.map f).sum, a.2.1 + (l.map g).sum, a.2.2 + (l.map h).sum) := by
  induction l generalizing a with
  | nil => simp
  | cons x xs ih => simp [ih, add_assoc]

theorem sumMpuGyro_eq (l : List Mpu6000Data) :
    sumMpuGyro l = ((l.map Mpu6000Data.gyro_x).sum, (l.map Mpu6000Data.gyro_y).sum,
      (l.map Mpu6000Data.gyro_z).sum) := by
  simpa [sumMpuGyro] using
    foldl_sum3 Mpu6000Data.gyro_x Mpu6000Data.gyro_y Mpu6000Data.gyro_z l (0, 0, 0)

theorem sumMpuAccel_eq (l : List Mpu6000Data) :
    sumMpuAccel l = ((l.map Mpu6000Data.accel_x).sum, (l.map Mpu6000Data.accel_y).sum,
      (l.map Mpu6000Data.accel_z).sum) := by
  simpa [sumMpuAccel] using
    foldl_sum3 Mpu6000Data.accel_x Mpu6000Data.accel_y Mpu6000Data.accel_z l (0, 0, 0)

theorem sumBma_eq (l : List Bma180Data) :
    sumBma l = ((l.map Bma180Data.x).sum, (l.map Bma180Data.y).sum,
      (l.map Bma180Data.z).sum) := by
  simpa [sumBma] using foldl_sum3 Bma180Data.x Bma180Data.y Bma180Data.z l (0, 0, 0)

theorem cast_nsmul_div (n : ℕ) (hn : n ≠ 0) (x : ℤ) :
    (((n • x : ℤ) : ℚ)) / (n : ℚ) = (x : ℚ) := by
  have hn0 : (n : ℚ) ≠ 0 := Nat.cast_ne_zero.mpr hn
  rw [nsmul_eq_mul]
  push_cast
  exact mul_div_cancel_left₀ _ hn0

/-- The mean of n copies of the same per-axis words is those words. -/
theorem meanVec_replicate (n : ℕ) (hn : n ≠ 0) (x y z : ℤ) :
    meanVec ((List.replicate n x).sum, (List.replicate n y).sum,
      (List.replicate n z).sum) n = ((x : ℚ), (y : ℚ), (z : ℚ)) := by
  simp only [meanVec, List.sum_replicate]
  rw [cast_nsmul_div n hn, cast_nsmul_div n hn, cast_nsmul_div n hn]

/-! Claim theorems. -/

/-- C4: the axis remap used for accel (line 295), gyro (line 315) and
magnetometer (lines 345-347) maps raw (x, y, z) to (y, x, -z), and the
remap is an involution: applying it twice returns any vector unchanged. -/
theorem C4_axis_remap_involution :
    (∀ v : Vec3, axisRemap v = (v.2.1, v.1, -v.2.2))
    ∧ (∀ v : Vec3, axisRemap (axisRemap v) = v)
    ∧ (∀ (accum : IVec3) (n : ℕ), remapMean accum n = axisRemap (meanVec accum n))
    ∧ (∀ (cal : Calibration) (vals : ℤ × ℤ × ℤ),
        magMeasurement cal vals =
          { x := (axisRemap ((vals.1 : ℚ), (vals.2.1 : ℚ), (vals.2.2 : ℚ))).1
                   * cal.mag_scale.1 - cal.mag_bias.1
          , y := (axisRemap ((vals.1 : ℚ), (vals.2.1 : ℚ), (vals.2.2 : ℚ))).2.1
                   * cal.mag_scale.2.1 - cal.mag_bias.2.1
          , z := (axisRemap ((vals.1 : ℚ), (vals.2.1 : ℚ), (vals.2.2 : ℚ))).2.2
                   * cal.mag_scale.2.2 - cal.mag_bias.2.2 }) := by
  refine ⟨fun v => rfl, fun v => ?_, fun accum n => ?_, fun cal vals => ?_⟩
  · simp [axisRemap]
  · simp [axisRemap, remapMean, meanVec]
  · simp [axisRemap, magMeasurement]

/-- C3: each published accel axis equals the remapped mean times the
physical scale factor times the per-axis calibration scale minus the
per-axis bias (lines 304-306); with accel_bias [1,2,3], accel_scale
[1,1,1], scale factor 1 and remapped mean [1,2,3] the published axes are
[0,0,0]. -/
theorem C3_accel_calibration :
    (∀ (cal : Calibration) (m : Vec3) (s : ℚ),
      applyAccelCal cal m s =
        (m.1 * s * cal.accel_scale.1 - cal.accel_bias.1,
         m.2.1 * s * cal.accel_scale.2.1 - cal.accel_bias.2.1,
         m.2.2 * s * cal.accel_scale.2.2 - cal.accel_bias.2.2))
    ∧ (∀ (cal : Calibration) (bc : Bool) (st : CycleState) (inp : CycleInput)
        (f : Mpu6000Data) (r : List Mpu6000Data),
        inp.gyroRead = FifoRead.data f r →
        ((cycleStep SensorConfig.mpu6000Accel cal bc st inp).accelsOut).map
            (fun d => (d.x, d.y, d.z))
          = some (applyAccelCal cal
              (remapMean (sumMpuAccel (f :: r)) (f :: r).length) inp.accelScaling))
    ∧ ((cycleStep SensorConfig.mpu6000Accel calRT false st0
          { inp0 with gyroRead := FifoRead.data mpuRT [] }).accelsOut).map
            (fun d => (d.x, d.y, d.z)) = some ((0 : ℚ), (0 : ℚ), (0 : ℚ)) := by
  refine ⟨fun cal m s => rfl, fun cal bc st inp f r h => ?_, ?_⟩
  · simp [cycleStep, cycleMpu6000Accel, h, publishTail]
  · simp [cycleStep, cycleMpu6000Accel, publishTail, inp0, calRT, st0, mpuRT,
      applyAccelCal, remapMean, sumMpuAccel, meanVec]

theorem C3_accel_calibration_witness :
    inp0.gyroRead = FifoRead.data mpu0 []
    ∧ ((cycleStep SensorConfig.mpu6000Accel cal0 false st0 inp0).accelsOut).map
          (fun d => (d.x, d.y, d.z))
        = some (applyAccelCal cal0
            (remapMean (sumMpuAccel (mpu0 :: [])) (mpu0 :: []).length) inp0.accelScaling) :=
  ⟨rfl, C3_accel_calibration.2.1 cal0 false st0 inp0 mpu0 [] rfl⟩

/-- Fixture sample for the averaging witness. -/
def mpuC7 : Mpu6000Data := ⟨1, 2, 3, 4, 5, 6, 7⟩

/-- C7: the per-axis value fed into scaling is the accumulated integer sum
divided by the sample count under real-valued division (lines 295 and 315),
and accumulating N copies of one sample yields exactly that sample as the
mean, for every N >= 1 and every sensor class accumulator. -/
theorem C7_mean_is_sum_div_count :
    (∀ l : List Mpu6000Data,
      remapMean (sumMpuGyro l) l.length = axisRemap (meanVec (sumMpuGyro l) l.length))
    ∧ (∀ l : List Mpu6000Data,
        meanVec (sumMpuGyro l) l.length
          = (((l.map Mpu6000Data.gyro_x).sum : ℚ) / (l.length : ℚ),
             ((l.map Mpu6000Data.gyro_y).sum : ℚ) / (l.length : ℚ),
             ((l.map Mpu6000Data.gyro_z).sum : ℚ) / (l.length : ℚ)))
    ∧ (∀ (N : ℕ) (s : Mpu6000Data), N ≠ 0 →
        meanVec (sumMpuGyro (List.replicate N s)) N
          = ((s.gyro_x : ℚ), (s.gyro_y : ℚ), (s.gyro_z : ℚ)))
    ∧ (∀ (N : ℕ) (s : Mpu6000Data), N ≠ 0 →
        meanVec (sumMpuAccel (List.replicate N s)) N
          = ((s.accel_x : ℚ), (s.accel_y : ℚ), (s.accel_z : ℚ)))
    ∧ (∀ (N : ℕ) (s : Bma180Data), N ≠ 0 →
        meanVec (sumBma (List.replicate N s)) N
          = ((s.x : ℚ), (s.y : ℚ), (s.z : ℚ))) := by
  refine ⟨fun l => ?_, fun l => ?_, fun N s hN => ?_, fun N s hN => ?_, fun N s hN => ?_⟩
  · simp [remapMean, axisRemap, meanVec]
  · rw [sumMpuGyro_eq]
    rfl
  · rw [sumMpuGyro_eq]
    simp only [List.map_replicate]
    exact meanVec_replicate N hN _ _ _
  · rw [sumMpuAccel_eq]
    simp only [List.map_replicate]
    exact meanVec_replicate N hN _ _ _
  · rw [sumBma_eq]
    simp only [List.map_replicate]
    exact meanVec_replicate N hN _ _ _

theorem C7_mean_is_sum_div_count_witness :
    (3 : ℕ) ≠ 0
    ∧ meanVec (sumMpuGyro (List.replicate 3 mpuC7)) 3
        = ((mpuC7.gyro_x : ℚ), (mpuC7.gyro_y : ℚ), (mpuC7.gyro_z : ℚ)) :=
  ⟨by decide, C7_mean_is_sum_div_count.2.2.1 3 mpuC7 (by decide)⟩

/-- C5: with bias correction disabled the entire cycle output is unchanged
under any change of the gyro bias estimate (lines 326-333 are the only use
of the estimate); with bias correction enabled the estimate is added per
axis to the scaled gyro measurement before publication. -/
theorem C5_gyro_bias_toggle :
    (∀ (cfg : SensorConfig) (cal : Calibration) (st : CycleState) (inp : CycleInput)
        (b1 b2 : Vec3),
      cycleStep cfg cal false st { inp with gyroBias := b1 }
        = cycleStep cfg cal false st { inp with gyroBias := b2 })
    ∧ (∀ (cal : Calibration) (st : CycleState) (inp : CycleInput)
        (f : Mpu6000Data) (r : List Mpu6000Data),
        inp.gyroRead = FifoRead.data f r →
        (cycleStep SensorConfig.mpu6000Accel cal true st inp).gyrosOut
          = some { x := (scaleGyro (remapMean (sumMpuGyro (f :: r)) (f :: r).length)
                          inp.gyroScaling).1 + inp.gyroBias.1
                 , y := (scaleGyro (remapMean (sumMpuGyro (f :: r)) (f :: r).length)
                          inp.gyroScaling).2.1 + inp.gyroBias.2.1
                 , z := (scaleGyro (remapMean (sumMpuGyro (f :: r)) (f :: r).length)
                          inp.gyroScaling).2.2 + inp.gyroBias.2.2
                 , temperature := mpuTemp (r.getLastD f).temperature }) := by
  constructor
  · intro cfg cal st inp b1 b2
    obtain ⟨aR, gR, l3, l3i, asc, gsc, mag, gb, gpr, brr, sink, asr, atu, ts⟩ := inp
    cases cfg <;> cases aR <;> cases gR <;>
      simp [cycleStep, cycleMpu6000Accel, cycleBma180Mpu6000, cycleBma180L3gd20,
        skipOutput, publishTail]
  · intro cal st inp f r h
    simp [cycleStep, cycleMpu6000Accel, h, publishTail]

theorem C5_gyro_bias_toggle_witness :
    inp0.gyroRead = FifoRead.data mpu0 []
    ∧ (cycleStep SensorConfig.mpu6000Accel cal0 true st0 inp0).gyrosOut
        = some { x := (scaleGyro (remapMean (sumMpuGyro (mpu0 :: [])) (mpu0 :: []).length)
                        inp0.gyroScaling).1 + inp0.gyroBias.1
               , y := (scaleGyro (remapMean (sumMpuGyro (mpu0 :: [])) (mpu0 :: []).length)
                        inp0.gyroScaling).2.1 + inp0.gyroBias.2.1
               , z := (scaleGyro (remapMean (sumMpuGyro (mpu0 :: [])) (mpu0 :: []).length)
                        inp0.gyroScaling).2.2 + inp0.gyroBias.2.2
               , temperature := mpuTemp (([] : List Mpu6000Data).getLastD mpu0).temperature } :=
  ⟨rfl, C5_gyro_bias_toggle.2 cal0 st0 inp0 mpu0 [] rfl⟩

/-- Fixture: a BMA180 sample with raw temperature word 10. -/
def bmaC9 : Bma180Data := ⟨0, 0, 0, 10⟩

/-- Fixture: an MPU6000 sample with raw temperature word 5. -/
def mpuC9 : Mpu6000Data := ⟨0, 0, 0, 0, 0, 0, 5⟩

/-- Fixture: a successful cycle in which the uninitialized local
temperature field happens to hold 999. -/
def inpC9 : CycleInput :=
  { inp0 with accelRead := FifoRead.data bmaC9 []
            , gyroRead := FifoRead.data mpuC9 []
            , accelTempUninit := 999 }

/-- C9: evidence at one concrete cycle.  In the MPU6000-accel
configuration the published accel temperature is the line 310 formula over
the raw word (mpuTemp, 35 + (t + 512) / 340), as the claim states — the
overwrite at lines 312-313 happens after the publish call is evaluated.
But in both BMA180 configurations the published temperature is whatever
indeterminate value the local field held (here 999), not the line 308
formula bmaTemp (25 + (t - 2) / 2, here 29): the guard at line 307 tests
the macro `BMA180`, which no configuration of the file defines, so neither
temperature branch runs before AccelsSet. -/
theorem C9_accel_temperature_guard_dead :
    ((cycleStep SensorConfig.mpu6000Accel cal0 false st0 inpC9).accelsOut).map
        AccelsData.temperature = some (mpuTemp 5)
    ∧ ((cycleStep SensorConfig.bma180Mpu6000 cal0 false st0 inpC9).accelsOut).map
        AccelsData.temperature = some 999
    ∧ ((cycleStep SensorConfig.bma180L3gd20 cal0 false st0 inpC9).accelsOut).map
        AccelsData.temperature = some 999
    ∧ ((cycleStep SensorConfig.bma180Mpu6000 cal0 false st0 inpC9).accelsOut).map
        AccelsData.temperature ≠ some (bmaTemp 10)
    ∧ ((cycleStep SensorConfig.bma180L3gd20 cal0 false st0 inpC9).accelsOut).map
        AccelsData.temperature ≠ some (bmaTemp 10)
    ∧ bmaTemp 10 = 29 := by
  refine ⟨?_, ?_, ?_, ?_, ?_, ?_⟩ <;>
    simp [cycleStep, cycleMpu6000Accel, cycleBma180Mpu6000, cycleBma180L3gd20, publishTail,
      inpC9, inp0, bmaC9, mpuC9, bmaTemp, mpuTemp] <;>
    norm_num

/-! Unfolding lemmas for the per-configuration cycle bodies. -/

theorem cycleMpu6000Accel_timeout (cal : Calibration) (bc : Bool) (st : CycleState)
    (inp : CycleInput) (h : inp.gyroRead = FifoRead.timeout) :
    cycleMpu6000Accel cal bc st inp = skipOutput st.error 0 st := by
  simp [cycleMpu6000Accel, h]

theorem cycleMpu6000Accel_data (cal : Calibration) (bc : Bool) (st : CycleState)
    (inp : CycleInput) (f : Mpu6000Data) (r : List Mpu6000Data)
    (h : inp.gyroRead = FifoRead.data f r) :
    cycleMpu6000Accel cal bc st inp
      = publishTail cal bc st inp (sumMpuAccel (f :: r)) (sumMpuGyro (f :: r))
          (f :: r).length (f :: r).length inp.accelScaling inp.gyroScaling
          (mpuTemp (r.getLastD f).temperature) (mpuTemp (r.getLastD f).temperature) := by
  simp [cycleMpu6000Accel, h]

/-- Fixture: a BMA180 + L3GD20 cycle whose L3GD20 queue yields zero gyro
samples and whose BMA180 read does not time out. -/
def inpL3Empty : CycleInput := { inp0 with l3gd20Init := ⟨0, 0, 0, 7⟩ }

/-- C1: falsifying evidence against the zero-count invariant.  In the
BMA180 + L3GD20 configuration a cycle in which the gyro class yields zero
samples with no timeout still divides the accumulated sums by the zero
count (line 315 runs unconditionally) and still publishes a gyro
measurement through GyrosSet (line 335 runs unconditionally): the output
is built from the zero-count division and the uninitialized temperature
field.  (In C float semantics the division by zero makes the axis values
NaN or infinity; in this rational model they evaluate to 0.) -/
theorem C1_zero_count_cycle_still_publishes :
    (cycleStep SensorConfig.bma180L3gd20 cal0 false st0 inpL3Empty).gyrosOut
        = some { x := 0, y := 0, z := 0, temperature := 7 }
    ∧ (cycleStep SensorConfig.bma180L3gd20 cal0 false st0 inpL3Empty).alarms
        = [AlarmEvent.clear]
    ∧ (cycleStep SensorConfig.bma180L3gd20 cal0 false st0 inpL3Empty).accelsOut.isSome
        = true := by
  refine ⟨?_, ?_, ?_⟩ <;>
    simp [cycleStep, cycleBma180L3gd20, publishTail, inpL3Empty, inp0, cal0, st0, bma0,
      sumL3gd20, sumBma, remapMean, scaleGyro, topAlarms, applyAccelCal, meanVec]

/-- Fixture: a cycle whose MPU6000 FIFO read exceeds the time budget. -/
def inpTO : CycleInput := { inp0 with gyroRead := FifoRead.timeout }

/-- C2 counterexample: in the concrete trace [timeout, success, success]
the cycle that resumes publication (the second) is the very cycle whose
alarm action is the critical set, and the clear happens only at the top of
the third cycle: the successful cycle does not clear the alarm, contrary to
the claim. -/
theorem C2_alarm_clear_is_one_cycle_late :
    (runCycles SensorConfig.mpu6000Accel cal0 false st0 [inpTO, inp0, inp0]).map
        (fun o => (o.alarms, o.gyrosOut.isSome))
      = [([AlarmEvent.clear], false), ([AlarmEvent.setCritical], true),
         ([AlarmEvent.clear], true)] := by
  simp [runCycles, cycleStep, cycleMpu6000Accel, publishTail, skipOutput, inpTO, inp0,
    st0, topAlarms, topKicks]

/-- C2 (amended): a cycle whose bus read exceeds the budget publishes no
accel/gyro measurement, builds no frame, and performs only the normal alarm
clear of a healthy cycle top; the following cycle sets the critical alarm
exactly once (its watchdog is kicked in the recovery branch and again at
the end), and when its read succeeds it resumes normal publication; the
alarm clear happens at the top of the cycle after that, not in the
resuming cycle itself. -/
theorem C2_amended_timeout_recovery
    (cal : Calibration) (bc : Bool) (st : CycleState)
    (i0 i1 i2 : CycleInput) (f1 : Mpu6000Data) (r1 : List Mpu6000Data)
    (f2 : Mpu6000Data) (r2 : List Mpu6000Data)
    (o0 o1 o2 : CycleOutput)
    (h0 : st.error = false)
    (ht : i0.gyroRead = FifoRead.timeout)
    (h1 : i1.gyroRead = FifoRead.data f1 r1)
    (h2 : i2.gyroRead = FifoRead.data f2 r2)
    (e0 : o0 = cycleStep SensorConfig.mpu6000Accel cal bc st i0)
    (e1 : o1 = cycleStep SensorConfig.mpu6000Accel cal bc o0.state i1)
    (e2 : o2 = cycleStep SensorConfig.mpu6000Accel cal bc o1.state i2) :
    o0.alarms = [AlarmEvent.clear] ∧ o0.gyrosOut = none ∧ o0.accelsOut = none
      ∧ o0.frame = none ∧ o0.state.error = true
      ∧ o1.alarms = [AlarmEvent.setCritical] ∧ o1.wdgKicks = 2
      ∧ o1.gyrosOut.isSome = true ∧ o1.accelsOut.isSome = true
      ∧ o1.state.error = false
      ∧ o2.alarms = [AlarmEvent.clear]
      ∧ (o0.alarms ++ o1.alarms ++ o2.alarms).count AlarmEvent.setCritical = 1 := by
  subst e0 e1 e2
  simp [cycleStep, cycleMpu6000Accel, ht, h1, h2, h0, publishTail, skipOutput,
    topAlarms, topKicks]

def c2out0 : CycleOutput := cycleStep SensorConfig.mpu6000Accel cal0 false st0 inpTO

def c2out1 : CycleOutput := cycleStep SensorConfig.mpu6000Accel cal0 false c2out0.state inp0

def c2out2 : CycleOutput := cycleStep SensorConfig.mpu6000Accel cal0 false c2out1.state inp0

theorem C2_amended_timeout_recovery_witness :
    st0.error = false ∧ inpTO.gyroRead = FifoRead.timeout
    ∧ inp0.gyroRead = FifoRead.data mpu0 []
    ∧ (c2out0.alarms = [AlarmEvent.clear] ∧ c2out0.gyrosOut = none
      ∧ c2out0.accelsOut = none ∧ c2out0.frame = none ∧ c2out0.state.error = true
      ∧ c2out1.alarms = [AlarmEvent.setCritical] ∧ c2out1.wdgKicks = 2
      ∧ c2out1.gyrosOut.isSome = true ∧ c2out1.accelsOut.isSome = true
      ∧ c2out1.state.error = false
      ∧ c2out2.alarms = [AlarmEvent.clear]
      ∧ (c2out0.alarms ++ c2out1.alarms ++ c2out2.alarms).count AlarmEvent.setCritical = 1) :=
  ⟨rfl, rfl, rfl,
   C2_amended_timeout_recovery cal0 false st0 inpTO inp0 inp0 mpu0 [] mpu0 []
     c2out0 c2out1 c2out2 rfl rfl rfl rfl rfl rfl rfl⟩

/-- Fixture: a successful cycle with the auxiliary sink attached. -/
def inpSink : CycleInput := { inp0 with sinkAttached := true }

/-- C6: with the sink attached, a successful cycle assembles the frame as
the 3-byte header (sync 0xff, timestamp high byte, low byte), the accel
axis block, the gyro block with temperature, then the tagged blocks 0x01
(mag), 0x02 (gps), 0x03 (baro) in exactly that order, each present exactly
when its update is set; with no mag/gps/baro updates the frame is exactly
the header and the two fixed blocks with zero tagged blocks. -/
theorem C6_frame_layout :
    (∀ (cal : Calibration) (bc : Bool) (st : CycleState) (inp : CycleInput)
        (f : Mpu6000Data) (r : List Mpu6000Data),
        inp.gyroRead = FifoRead.data f r → inp.sinkAttached = true →
        ∃ a g, (cycleStep SensorConfig.mpu6000Accel cal bc st inp).accelsOut = some a
          ∧ (cycleStep SensorConfig.mpu6000Accel cal bc st inp).gyrosOut = some g
          ∧ (cycleStep SensorConfig.mpu6000Accel cal bc st inp).frame
              = some (frameHeader inp.ts ++ accelBlock a ++ gyroBlock g
                ++ (match inp.magSample with
                    | none => []
                    | some v => magBlock (magMeasurement cal v))
                ++ (if st.gps_updated then TByte.lit 0x02 :: inp.gpsRecord else [])
                ++ (if st.baro_updated then TByte.lit 0x03 :: inp.baroRecord else [])))
    ∧ (∀ (cal : Calibration) (bc : Bool) (st : CycleState) (inp : CycleInput)
        (f : Mpu6000Data) (r : List Mpu6000Data),
        inp.gyroRead = FifoRead.data f r → inp.sinkAttached = true →
        inp.magSample = none → st.gps_updated = false → st.baro_updated = false →
        ∃ a g, (cycleStep SensorConfig.mpu6000Accel cal bc st inp).accelsOut = some a
          ∧ (cycleStep SensorConfig.mpu6000Accel cal bc st inp).gyrosOut = some g
          ∧ (cycleStep SensorConfig.mpu6000Accel cal bc st inp).frame
              = some (frameHeader inp.ts ++ accelBlock a ++ gyroBlock g)) := by
  constructor
  · intro cal bc st inp f r h hs
    have hstep : cycleStep SensorConfig.mpu6000Accel cal bc st inp
        = publishTail cal bc st inp (sumMpuAccel (f :: r)) (sumMpuGyro (f :: r))
            (f :: r).length (f :: r).length inp.accelScaling inp.gyroScaling
            (mpuTemp (r.getLastD f).temperature) (mpuTemp (r.getLastD f).temperature) := by
      simp only [cycleStep]
      exact cycleMpu6000Accel_data cal bc st inp f r h
    rw [hstep]
    refine ⟨_, _, rfl, rfl, ?_⟩
    cases hm : inp.magSample <;> cases hgu : st.gps_updated <;> cases hbu : st.baro_updated <;>
      simp [publishTail, hs, hm, hgu, hbu, buildFrame, accelBlock, gyroBlock, magBlock,
        frameHeader, f32]
  · intro cal bc st inp f r h hs hm hgu hbu
    have hstep : cycleStep SensorConfig.mpu6000Accel cal bc st inp
        = publishTail cal bc st inp (sumMpuAccel (f :: r)) (sumMpuGyro (f :: r))
            (f :: r).length (f :: r).length inp.accelScaling inp.gyroScaling
            (mpuTemp (r.getLastD f).temperature) (mpuTemp (r.getLastD f).temperature) := by
      simp only [cycleStep]
      exact cycleMpu6000Accel_data cal bc st inp f r h
    rw [hstep]
    refine ⟨_, _, rfl, rfl, ?_⟩
    simp [publishTail, hs, hm, hgu, hbu, buildFrame, accelBlock, gyroBlock, frameHeader, f32]

theorem C6_frame_layout_witness :
    inpSink.gyroRead = FifoRead.data mpu0 [] ∧ inpSink.sinkAttached = true
    ∧ inpSink.magSample = none ∧ st0.gps_updated = false ∧ st0.baro_updated = false
    ∧ ∃ a g, (cycleStep SensorConfig.mpu6000Accel cal0 false st0 inpSink).accelsOut = some a
        ∧ (cycleStep SensorConfig.mpu6000Accel cal0 false st0 inpSink).gyrosOut = some g
        ∧ (cycleStep SensorConfig.mpu6000Accel cal0 false st0 inpSink).frame
            = some (frameHeader inpSink.ts ++ accelBlock a ++ gyroBlock g) :=
  ⟨rfl, rfl, rfl, rfl, rfl,
   C6_frame_layout.2 cal0 false st0 inpSink mpu0 [] rfl rfl rfl rfl rfl⟩

theorem flatten_map_nil {α β : Type} (l : List α) :
    (l.map fun _ => ([] : List β)).flatten = [] := by
  induction l with
  | nil => rfl
  | cons x xs ih => simp [ih]

/-- C8: when any startup self-test reports a fault, the critical alarm is
set before the main loop (the alarm call trace of the startup is exactly
the initial clear followed by the critical set), and the task stays in the
watchdog-fed idle loop for the whole remaining trace: every iteration is
the idle iteration, which publishes nothing, builds no frame, makes no
alarm call and kicks the watchdog once, so the alarm remains critical for
the rest of the trace. -/
theorem C8_selftest_failure_halts
    (cfg : SensorConfig) (cal : Calibration) (bc : Bool)
    (a g m : ℤ) (inputs : List CycleInput)
    (h : selfTestFailed a g m = true) :
    (sensorsTaskRun cfg cal bc a g m inputs).1 = [AlarmEvent.clear, AlarmEvent.setCritical]
    ∧ (∀ o ∈ (sensorsTaskRun cfg cal bc a g m inputs).2, o = haltedOutput)
    ∧ haltedOutput.accelsOut = none ∧ haltedOutput.gyrosOut = none
    ∧ haltedOutput.frame = none ∧ haltedOutput.alarms = [] ∧ haltedOutput.wdgKicks = 1
    ∧ alarmAfter AlarmSeverity.ok
        ((sensorsTaskRun cfg cal bc a g m inputs).1
          ++ ((sensorsTaskRun cfg cal bc a g m inputs).2.map CycleOutput.alarms).flatten)
      = AlarmSeverity.critical := by
  refine ⟨?_, ?_, rfl, rfl, rfl, rfl, rfl, ?_⟩
  · simp [sensorsTaskRun, h, startupAlarms]
  · intro o ho
    simp only [sensorsTaskRun, h, if_true, List.mem_map] at ho
    obtain ⟨x, _, hx⟩ := ho
    exact hx.symm
  · simp [sensorsTaskRun, h, startupAlarms, List.map_map, Function.comp,
      haltedOutput, flatten_map_nil, alarmAfter]

theorem C8_selftest_failure_halts_witness :
    selfTestFailed (-1) 0 0 = true
    ∧ ((sensorsTaskRun SensorConfig.mpu6000Accel cal0 false (-1) 0 0 [inp0]).1
        = [AlarmEvent.clear, AlarmEvent.setCritical]
      ∧ (∀ o ∈ (sensorsTaskRun SensorConfig.mpu6000Accel cal0 false (-1) 0 0 [inp0]).2,
          o = haltedOutput)
      ∧ haltedOutput.accelsOut = none ∧ haltedOutput.gyrosOut = none
      ∧ haltedOutput.frame = none ∧ haltedOutput.alarms = [] ∧ haltedOutput.wdgKicks = 1
      ∧ alarmAfter AlarmSeverity.ok
          ((sensorsTaskRun SensorConfig.mpu6000Accel cal0 false (-1) 0 0 [inp0]).1
            ++ ((sensorsTaskRun SensorConfig.mpu6000Accel cal0 false (-1) 0 0 [inp0]).2.map
                  CycleOutput.alarms).flatten)
        = AlarmSeverity.critical) :=
  ⟨by decide,
   C8_selftest_failure_halts SensorConfig.mpu6000Accel cal0 false (-1) 0 0 [inp0] (by decide)⟩

/-- C10: the gps/baro update flags are cleared only at the moment their
record is consumed into a frame.  A timeout cycle leaves both flags and
produces no frame; a successful cycle without the sink attached also
leaves them; a successful cycle with the sink attached and the gps flag
set clears the flag and emits the 0x02-tagged gps record in the frame;
hence a notification arriving before a failed cycle survives it and is
reported in the next successfully assembled frame. -/
theorem C10_update_flags_survive_failed_cycles :
    (∀ (cal : Calibration) (bc : Bool) (st : CycleState) (inp : CycleInput),
      inp.gyroRead = FifoRead.timeout →
      (cycleStep SensorConfig.mpu6000Accel cal bc st inp).state.gps_updated = st.gps_updated
      ∧ (cycleStep SensorConfig.mpu6000Accel cal bc st inp).state.baro_updated
          = st.baro_updated
      ∧ (cycleStep SensorConfig.mpu6000Accel cal bc st inp).frame = none)
    ∧ (∀ (cal : Calibration) (bc : Bool) (st : CycleState) (inp : CycleInput)
        (f : Mpu6000Data) (r : List Mpu6000Data),
        inp.gyroRead = FifoRead.data f r → inp.sinkAttached = false →
        (cycleStep SensorConfig.mpu6000Accel cal bc st inp).state.gps_updated = st.gps_updated
        ∧ (cycleStep SensorConfig.mpu6000Accel cal bc st inp).state.baro_updated
            = st.baro_updated
        ∧ (cycleStep SensorConfig.mpu6000Accel cal bc st inp).frame = none)
    ∧ (∀ (cal : Calibration) (bc : Bool) (st : CycleState) (inp : CycleInput)
        (f : Mpu6000Data) (r : List Mpu6000Data),
        inp.gyroRead = FifoRead.data f r → inp.sinkAttached = true →
        st.gps_updated = true →
        (cycleStep SensorConfig.mpu6000Accel cal bc st inp).state.gps_updated = false
        ∧ ∃ a g, (cycleStep SensorConfig.mpu6000Accel cal bc st inp).accelsOut = some a
            ∧ (cycleStep SensorConfig.mpu6000Accel cal bc st inp).gyrosOut = some g
            ∧ (cycleStep SensorConfig.mpu6000Accel cal bc st inp).frame
                = some (frameHeader inp.ts ++ accelBlock a ++ gyroBlock g
                  ++ (match inp.magSample with
                      | none => []
                      | some v => magBlock (magMeasurement cal v))
                  ++ (TByte.lit 0x02 :: inp.gpsRecord)
                  ++ (if st.baro_updated then TByte.lit 0x03 :: inp.baroRecord else [])))
    ∧ (∀ (cal : Calibration) (bc : Bool) (st : CycleState) (i0 i1 : CycleInput)
        (f : Mpu6000Data) (r : List Mpu6000Data),
        i0.gyroRead = FifoRead.timeout → i1.gyroRead = FifoRead.data f r →
        i1.sinkAttached = true →
        (cycleStep SensorConfig.mpu6000Accel cal bc
            (applyEvent true false st) i0).state.gps_updated = true
        ∧ ∃ a g,
            (cycleStep SensorConfig.mpu6000Accel cal bc
              (cycleStep SensorConfig.mpu6000Accel cal bc
                (applyEvent true false st) i0).state i1).accelsOut = some a
            ∧ (cycleStep SensorConfig.mpu6000Accel cal bc
                (cycleStep SensorConfig.mpu6000Accel cal bc
                  (applyEvent true false st) i0).state i1).gyrosOut = some g
            ∧ (cycleStep SensorConfig.mpu6000Accel cal bc
                (cycleStep SensorConfig.mpu6000Accel cal bc
                  (applyEvent true false st) i0).state i1).frame
              = some (frameHeader i1.ts ++ accelBlock a ++ gyroBlock g
                ++ (match i1.magSample with
                    | none => []
                    | some v => magBlock (magMeasurement cal v))
                ++ (TByte.lit 0x02 :: i1.gpsRecord)
                ++ (if st.baro_updated then TByte.lit 0x03 :: i1.baroRecord else []))) := by
  refine ⟨fun cal bc st inp h => ?_, fun cal bc st inp f r h hs => ?_,
    fun cal bc st inp f r h hs hgu => ?_, fun cal bc st i0 i1 f r ht h1 hs => ?_⟩
  · simp [cycleStep, cycleMpu6000Accel, h, skipOutput]
  · simp [cycleStep, cycleMpu6000Accel, h, hs, publishTail]
  · have hstep : cycleStep SensorConfig.mpu6000Accel cal bc st inp
        = publishTail cal bc st inp (sumMpuAccel (f :: r)) (sumMpuGyro (f :: r))
            (f :: r).length (f :: r).length inp.accelScaling inp.gyroScaling
            (mpuTemp (r.getLastD f).temperature) (mpuTemp (r.getLastD f).temperature) := by
      simp only [cycleStep]
      exact cycleMpu6000Accel_data cal bc st inp f r h
    rw [hstep]
    constructor
    · simp [publishTail, hs, hgu]
    · refine ⟨_, _, rfl, rfl, ?_⟩
      cases hm : inp.magSample <;> cases hbu : st.baro_updated <;>
        simp [publishTail, hs, hgu, hm, hbu, buildFrame, accelBlock, gyroBlock, magBlock,
          frameHeader, f32]
  · have hskip : cycleStep SensorConfig.mpu6000Accel cal bc (applyEvent true false st) i0
        = skipOutput (applyEvent true false st).error 0 (applyEvent true false st) := by
      simp only [cycleStep]
      exact cycleMpu6000Accel_timeout cal bc (applyEvent true false st) i0 ht
    rw [hskip]
    constructor
    · simp [skipOutput, applyEvent]
    · have hstep : ∀ st2 : CycleState, cycleStep SensorConfig.mpu6000Accel cal bc st2 i1
          = publishTail cal bc st2 i1 (sumMpuAccel (f :: r)) (sumMpuGyro (f :: r))
              (f :: r).length (f :: r).length i1.accelScaling i1.gyroScaling
              (mpuTemp (r.getLastD f).temperature) (mpuTemp (r.getLastD f).temperature) := by
        intro st2
        simp only [cycleStep]
        exact cycleMpu6000Accel_data cal bc st2 i1 f r h1
      rw [hstep]
      refine ⟨_, _, rfl, rfl, ?_⟩
      cases hm : i1.magSample <;> cases hbu : st.baro_updated <;>
        simp [publishTail, skipOutput, applyEvent, hs, hm, hbu, buildFrame, accelBlock,
          gyroBlock, magBlock, frameHeader, f32]

theorem C10_update_flags_witness :
    inpTO.gyroRead = FifoRead.timeout ∧ inpSink.gyroRead = FifoRead.data mpu0 []
    ∧ inpSink.sinkAttached = true
    ∧ ((cycleStep SensorConfig.mpu6000Accel cal0 false
          (applyEvent true false st0) inpTO).state.gps_updated = true
      ∧ ∃ a g,
          (cycleStep SensorConfig.mpu6000Accel cal0 false
            (cycleStep SensorConfig.mpu6000Accel cal0 false
              (applyEvent true false st0) inpTO).state inpSink).accelsOut = some a
          ∧ (cycleStep SensorConfig.mpu6000Accel cal0 false
              (cycleStep SensorConfig.mpu6000Accel cal0 false
                (applyEvent true false st0) inpTO).state inpSink).gyrosOut = some g
          ∧ (cycleStep SensorConfig.mpu6000Accel cal0 false
              (cycleStep SensorConfig.mpu6000Accel cal0 false
                (applyEvent true false st0) inpTO).state inpSink).frame
            = some (frameHeader inpSink.ts ++ accelBlock a ++ gyroBlock g
              ++ (match inpSink.magSample with
                  | none => []
                  | some v => magBlock (magMeasurement cal0 v))
              ++ (TByte.lit 0x02 :: inpSink.gpsRecord)
              ++ (if st0.baro_updated then TByte.lit 0x03 :: inpSink.baroRecord else []))) :=
  ⟨rfl, rfl, rfl,
   C10_update_flags_survive_failed_cycles.2.2.2 cal0 false st0 inpTO inpSink mpu0 []
     rfl rfl rfl⟩

end Sensors
